import Mathlib

/-!
# Verification of the Solana DEX order router

A shallow embedding of the order-execution pipeline:
the venue selector (`selectBestDex`), the mock settlement step
(`executeSwap`), the persistence layer's partial update
(`updateOrderStatus`), the per-attempt state machine (`processOrder`),
the retrying scheduler (`runAttempt`/`runAttempts`), and an abstract
worker-pool/rate-limiter model for the queue.  JavaScript numbers are
modelled as exact rationals, `Math.random()` draws as explicit rational
parameters in `[0, 1)`, and nullable fields as `Option`.
-/

namespace SolanaDexRouter

/-- `DexProvider` enum from `src/types/index.ts`. -/
inductive DexProvider
  | RAYDIUM
  | METEORA
deriving DecidableEq, Repr

/-- The string value of each enum member (`'raydium'` / `'meteora'`). -/
def DexProvider.name : DexProvider → String
  | .RAYDIUM => "raydium"
  | .METEORA => "meteora"

/-- `OrderStatus` enum from `src/types/index.ts`. -/
inductive OrderStatus
  | PENDING
  | ROUTING
  | BUILDING
  | SUBMITTED
  | CONFIRMED
  | FAILED
deriving DecidableEq, Repr

/-- `OrderType` enum from `src/types/index.ts`. -/
inductive OrderType
  | MARKET
  | LIMIT
  | SNIPER
deriving DecidableEq, Repr

/-- `DexQuote` from `src/types/index.ts`. -/
structure DexQuote where
  provider : DexProvider
  price : ℚ
  fee : ℚ
  estimatedOutput : ℚ
  liquidity : ℚ
deriving DecidableEq

/-! ## Configuration constants (`src/config/index.ts`) -/

def maxRetries : ℕ := 3
def retryDelay : ℕ := 1000
def queueConcurrency : ℕ := 10
def maxOrdersPerMinute : ℕ := 100
def defaultSlippage : ℚ := 1 / 100
def basePrice : ℚ := 50000

/-! ## Number formatting

`Number.prototype.toFixed(n)` as used on the nonnegative quantities in
`MockDexRouter` (liquidity in millions, output amounts, percentage
advantages): decimal rounding to `n` places, ties away from zero on the
magnitude. -/

/-- `⌊|q| * 10^n + 1/2⌋` computed over `ℕ`. -/
def toFixedScaled (n : ℕ) (q : ℚ) : ℕ :=
  (2 * |q|.num.toNat * 10 ^ n + |q|.den) / (2 * |q|.den)

/-- Left-pad a numeral string with zeros to the given width. -/
def padZeros (width : ℕ) (s : String) : String :=
  String.mk (List.replicate (width - s.length) '0') ++ s

/-- Model of JavaScript `x.toFixed(n)` for `n > 0`. -/
def toFixed (n : ℕ) (q : ℚ) : String :=
  let k := toFixedScaled n q
  (if q < 0 then "-" else "") ++ toString (k / 10 ^ n) ++ "." ++
    padZeros n (toString (k % 10 ^ n))

/-! ## Venue selector (`MockDexRouter.selectBestDex`) -/

/-- Return type of `selectBestDex`. -/
structure SelectResult where
  selectedDex : DexProvider
  reason : String
deriving DecidableEq

/-- `MockDexRouter.selectBestDex` from `src/services/MockDexRouter.ts`,
lines 87-142: outputs within 0.1% of each other are decided on
liquidity, otherwise on the larger estimated output. -/
def selectBestDex (raydiumQuote meteoraQuote : DexQuote) : SelectResult :=
  let outputDiff := |raydiumQuote.estimatedOutput - meteoraQuote.estimatedOutput|
  let avgOutput := (raydiumQuote.estimatedOutput + meteoraQuote.estimatedOutput) / 2
  let diffPercentage := outputDiff / avgOutput * 100
  if diffPercentage < 1 / 10 then
    if raydiumQuote.liquidity > meteoraQuote.liquidity then
      { selectedDex := DexProvider.RAYDIUM
        reason := "Similar prices, Raydium has higher liquidity ($" ++
          toFixed 2 (raydiumQuote.liquidity / 1000000) ++ "M vs $" ++
          toFixed 2 (meteoraQuote.liquidity / 1000000) ++ "M)" }
    else
      { selectedDex := DexProvider.METEORA
        reason := "Similar prices, Meteora has higher liquidity ($" ++
          toFixed 2 (meteoraQuote.liquidity / 1000000) ++ "M vs $" ++
          toFixed 2 (raydiumQuote.liquidity / 1000000) ++ "M)" }
  else if raydiumQuote.estimatedOutput > meteoraQuote.estimatedOutput then
    { selectedDex := DexProvider.RAYDIUM
      reason := "Raydium offers " ++
        toFixed 3 ((raydiumQuote.estimatedOutput - meteoraQuote.estimatedOutput) /
          meteoraQuote.estimatedOutput * 100) ++
        "% better output (" ++ toFixed 2 raydiumQuote.estimatedOutput ++ " vs " ++
        toFixed 2 meteoraQuote.estimatedOutput ++ ")" }
  else
    { selectedDex := DexProvider.METEORA
      reason := "Meteora offers " ++
        toFixed 3 ((meteoraQuote.estimatedOutput - raydiumQuote.estimatedOutput) /
          raydiumQuote.estimatedOutput * 100) ++
        "% better output (" ++ toFixed 2 meteoraQuote.estimatedOutput ++ " vs " ++
        toFixed 2 raydiumQuote.estimatedOutput ++ ")" }

/-- The output-difference percentage of step 1 of the selection
algorithm, `|outA − outB| / ((outA + outB)/2) * 100`. -/
def diffPct (raydiumQuote meteoraQuote : DexQuote) : ℚ :=
  |raydiumQuote.estimatedOutput - meteoraQuote.estimatedOutput| /
    ((raydiumQuote.estimatedOutput + meteoraQuote.estimatedOutput) / 2) * 100

/-- `s` contains `sub` as a substring. -/
def Mentions (s sub : String) : Prop := ∃ a b, s = a ++ sub ++ b

/-! ## Orders and the record store (`src/types/index.ts`, `src/database/index.ts`) -/

/-- A row of the `orders` table (the `Order` interface): nullable columns
are `Option`, `retry_count` is a nonnegative integer. -/
structure Order where
  id : String
  tokenIn : String
  tokenOut : String
  amount : ℚ
  slippage : ℚ
  type : OrderType
  status : OrderStatus
  selectedDex : Option DexProvider
  raydiumPrice : Option ℚ
  meteoraPrice : Option ℚ
  executedPrice : Option ℚ
  txHash : Option String
  error : Option String
  retryCount : ℕ
deriving DecidableEq

/-- The client-supplied `OrderInput`; each field may be absent. -/
structure OrderInput where
  tokenIn : Option String := none
  tokenOut : Option String := none
  amount : Option ℚ := none
  slippage : Option ℚ := none
deriving DecidableEq

/-- JavaScript truthiness of an optional number: `undefined`, `null` and
`0` are falsy. -/
def truthyQ : Option ℚ → Bool
  | none => false
  | some q => q != 0

/-- JavaScript truthiness of an optional string: `undefined`, `null` and
`""` are falsy. -/
def truthyS : Option String → Bool
  | none => false
  | some s => s != ""

/-- `x || d` for an optional number `x`: the default is used when `x` is
absent or `0`. -/
def jsOrQ (x : Option ℚ) (d : ℚ) : ℚ :=
  match x with
  | none => d
  | some v => if v = 0 then d else v

/-- One guarded `SET` clause of `Database.updateOrderStatus` for a
numeric column: written only when the update value is truthy
(`if (updates.field) fields.push(...)`). -/
def applyQ (cur upd : Option ℚ) : Option ℚ :=
  match upd with
  | none => cur
  | some v => if v = 0 then cur else some v

/-- Guarded `SET` clause for a string column (truthy check). -/
def applyS (cur upd : Option String) : Option String :=
  match upd with
  | none => cur
  | some v => if v = "" then cur else some v

/-- Guarded `SET` clause for the `selected_dex` column; the enum values
`'raydium'`/`'meteora'` are non-empty strings, hence truthy whenever
present. -/
def applyD (cur upd : Option DexProvider) : Option DexProvider :=
  match upd with
  | none => cur
  | some v => some v

/-- `SET` clause for `retry_count`, guarded by
`updates.retryCount !== undefined`: written whenever present, including
when it is `0`. -/
def applyR (cur : ℕ) (upd : Option ℕ) : ℕ :=
  upd.getD cur

/-- The `updates : Partial<Order>` argument of
`Database.updateOrderStatus`; only the columns that method can touch. -/
structure OrderUpdates where
  selectedDex : Option DexProvider := none
  raydiumPrice : Option ℚ := none
  meteoraPrice : Option ℚ := none
  executedPrice : Option ℚ := none
  txHash : Option String := none
  error : Option String := none
  retryCount : Option ℕ := none
deriving DecidableEq

/-- `Database.updateOrderStatus` from `src/database/index.ts`, lines
69-114: always writes `status`; writes each optional column only when
the corresponding update value is truthy (resp. defined, for
`retryCount`); every other column keeps its prior value. -/
def updateOrderStatus (row : Order) (status : OrderStatus)
    (updates : OrderUpdates) : Order :=
  { row with
    status := status
    selectedDex := applyD row.selectedDex updates.selectedDex
    raydiumPrice := applyQ row.raydiumPrice updates.raydiumPrice
    meteoraPrice := applyQ row.meteoraPrice updates.meteoraPrice
    executedPrice := applyQ row.executedPrice updates.executedPrice
    txHash := applyS row.txHash updates.txHash
    error := applyS row.error updates.error
    retryCount := applyR row.retryCount updates.retryCount }

/-- `Database.createOrder`: a fresh row with `status = pending`,
`retry_count = 0`, `slippage = orderInput.slippage || defaultSlippage`
and `type = orderInput.type || MARKET`. -/
def createOrder (id : String) (inp : OrderInput) : Order :=
  { id := id
    tokenIn := inp.tokenIn.getD ""
    tokenOut := inp.tokenOut.getD ""
    amount := inp.amount.getD 0
    slippage := jsOrQ inp.slippage defaultSlippage
    type := OrderType.MARKET
    status := OrderStatus.PENDING
    selectedDex := none
    raydiumPrice := none
    meteoraPrice := none
    executedPrice := none
    txHash := none
    error := none
    retryCount := 0 }

/-- A row of the `routing_logs` table (append-only). -/
structure RoutingLog where
  orderId : String
  raydiumPrice : ℚ
  raydiumFee : ℚ
  meteoraPrice : ℚ
  meteoraFee : ℚ
  selectedDex : DexProvider
  reason : String
deriving DecidableEq

/-- The persistent state touched by one order's processing: its row and
the append-only routing-decision log. -/
structure DbState where
  row : Order
  logs : List RoutingLog
deriving DecidableEq

/-! ## Mock settlement (`MockDexRouter.executeSwap`) -/

/-- `SwapResult` from `src/types/index.ts`. -/
structure SwapResult where
  success : Bool
  txHash : Option String := none
  executedPrice : Option ℚ := none
  actualOutput : Option ℚ := none
  error : Option String := none
deriving DecidableEq

/-- The base58-like alphabet of `generateMockTxHash`. -/
def txHashChars : List Char :=
  "123456789ABCDEFGHJKLMNPQRSTUVWXYZabcdefghijkmnopqrstuvwxyz".toList

/-- `MockDexRouter.generateMockTxHash`: 88 characters, each picked by an
independent `Math.random()` draw `rand i ∈ [0, 1)`. -/
def generateMockTxHash (rand : ℕ → ℚ) : String :=
  String.mk <| (List.range 88).map fun i =>
    txHashChars.getD ⌊rand i * txHashChars.length⌋.toNat '1'

/-- `MockDexRouter.executeSwap` from `src/services/MockDexRouter.ts`,
lines 149-180.  `failDraw` is the `Math.random() < 0.05` failure draw,
`hashRand` the draws of `generateMockTxHash`, `slipR ∈ [0, 1)` the draw
of the slippage offset.  On success the executed price is the selected
venue's stored quoted price (falling back to `basePrice` when unset)
times `1 + slippageVariance` with
`slippageVariance = -slippage + slipR * slippage`. -/
def executeSwap (dex : DexProvider) (order : Order) (failDraw : Bool)
    (hashRand : ℕ → ℚ) (slipR : ℚ) : SwapResult :=
  if failDraw then
    { success := false
      error := some (dex.name ++ " network timeout - transaction failed to confirm") }
  else
    let txHash := generateMockTxHash hashRand
    let slippageVariance := -order.slippage + slipR * order.slippage
    let executedPrice :=
      if order.selectedDex = some DexProvider.RAYDIUM then
        jsOrQ order.raydiumPrice basePrice * (1 + slippageVariance)
      else
        jsOrQ order.meteoraPrice basePrice * (1 + slippageVariance)
    let fee : ℚ := if dex = DexProvider.RAYDIUM then 3 / 1000 else 2 / 1000
    { success := true
      txHash := some txHash
      executedPrice := some executedPrice
      actualOutput := some (order.amount * executedPrice * (1 - fee)) }

/-! ## One execution attempt (`processOrder` in `src/queue/orderQueue.ts`) -/

/-- A status event delivered through `emitStatusUpdate`, with the
transition-specific payload of each call site. -/
inductive Event
  | status (s : OrderStatus)
  | routing (selectedDex : DexProvider) (raydiumPrice meteoraPrice : ℚ) (reason : String)
  | confirmed (txHash : String) (executedPrice actualOutput : ℚ)
  | failed (error : String) (retryCount : ℕ)
deriving DecidableEq

/-- Everything one attempt draws from the environment: the two quotes
returned by the (always-succeeding) mock adapters and the settlement
randomness. -/
structure AttemptEnv where
  rayQuote : DexQuote
  metQuote : DexQuote
  swapFails : Bool
  hashRand : ℕ → ℚ
  slipR : ℚ

/-- The routing-decision record logged by an attempt that reached the
routing phase with the quotes of environment `env`. -/
def attemptLog (orderId : String) (env : AttemptEnv) : RoutingLog :=
  let sel := selectBestDex env.rayQuote env.metQuote
  { orderId := orderId
    raydiumPrice := env.rayQuote.price
    raydiumFee := env.rayQuote.fee
    meteoraPrice := env.metQuote.price
    meteoraFee := env.metQuote.fee
    selectedDex := sel.selectedDex
    reason := sel.reason }

/-- Result of one pass of `processOrder`: the updated persistent state,
the events emitted, and whether the error was re-thrown (which is what
triggers a BullMQ retry). -/
structure AttemptResult where
  db : DbState
  events : List Event
  threw : Bool

/-- `processOrder` from `src/queue/orderQueue.ts`, lines 59-179: one
execution attempt.  Routing (quotes, selection, routing log, persisted
venue and prices), building, submission, settlement; on settlement
failure the catch block increments the persisted retry count and either
marks the order failed (count `≥ maxRetries`) or re-persists it as
pending, then re-throws. -/
def processOrder (db : DbState) (env : AttemptEnv) : AttemptResult :=
  let row := db.row
  let row1 := updateOrderStatus row OrderStatus.ROUTING {}
  let sel := selectBestDex env.rayQuote env.metQuote
  let log := attemptLog row.id env
  let row2 := updateOrderStatus row1 OrderStatus.ROUTING
    { selectedDex := some sel.selectedDex
      raydiumPrice := some env.rayQuote.price
      meteoraPrice := some env.metQuote.price }
  let row3 := updateOrderStatus row2 OrderStatus.BUILDING {}
  let fullOrder := row3
  let row4 := updateOrderStatus row3 OrderStatus.SUBMITTED {}
  let stageEvents : List Event :=
    [Event.status OrderStatus.ROUTING,
     Event.routing sel.selectedDex env.rayQuote.price env.metQuote.price sel.reason,
     Event.status OrderStatus.BUILDING,
     Event.status OrderStatus.SUBMITTED]
  let swap := executeSwap sel.selectedDex fullOrder env.swapFails env.hashRand env.slipR
  if swap.success then
    let row5 := updateOrderStatus row4 OrderStatus.CONFIRMED
      { txHash := swap.txHash, executedPrice := swap.executedPrice }
    { db := { row := row5, logs := db.logs ++ [log] }
      events := stageEvents ++
        [Event.confirmed (swap.txHash.getD "") (swap.executedPrice.getD 0)
          (swap.actualOutput.getD 0)]
      threw := false }
  else
    let msg := swap.error.getD "Swap execution failed"
    let retryCount := row4.retryCount + 1
    if maxRetries ≤ retryCount then
      let row5 := updateOrderStatus row4 OrderStatus.FAILED
        { error := some msg, retryCount := some retryCount }
      { db := { row := row5, logs := db.logs ++ [log] }
        events := stageEvents ++ [Event.failed msg retryCount]
        threw := true }
    else
      let row5 := updateOrderStatus row4 OrderStatus.PENDING
        { error := some msg, retryCount := some retryCount }
      { db := { row := row5, logs := db.logs ++ [log] }
        events := stageEvents
        threw := true }

/-! ## The retrying scheduler

The queue is created with `attempts: config.queue.maxRetries` and
exponential backoff (`src/queue/orderQueue.ts`, lines 23-34); BullMQ
re-runs a job that threw while attempts remain and never re-runs a
completed or exhausted job.  `JobState` carries the remaining attempts
and whether the job left the scheduler. -/

structure JobState where
  db : DbState
  attemptsLeft : ℕ
  finished : Bool
deriving DecidableEq

/-- The job enqueued for a freshly created order. -/
def initialJob (id : String) (inp : OrderInput) : JobState :=
  { db := { row := createOrder id inp, logs := [] }
    attemptsLeft := maxRetries
    finished := false }

/-- One scheduler tick on a job: a finished job is left untouched;
otherwise `processOrder` runs once, and the job leaves the scheduler
when the attempt succeeded or the configured attempts are exhausted. -/
def runAttempt (js : JobState) (env : AttemptEnv) : JobState :=
  if js.finished then js
  else
    let r := processOrder js.db env
    if r.threw then
      { db := r.db, attemptsLeft := js.attemptsLeft - 1,
        finished := js.attemptsLeft ≤ 1 }
    else
      { db := r.db, attemptsLeft := js.attemptsLeft - 1, finished := true }

/-- A whole sequence of scheduler ticks. -/
def runAttempts (js : JobState) (envs : List AttemptEnv) : JobState :=
  envs.foldl runAttempt js

/-! ## Submission validation (`src/routes/orderRoutes.ts`) -/

/-- The submission check of both the HTTP route (lines 27-31) and the
websocket `submit_order` handler (lines 247-254):
`if (!orderInput.tokenIn || !orderInput.tokenOut || !orderInput.amount)`
rejects; `true` means the order is accepted (created and enqueued). -/
def validateOrderInput (inp : OrderInput) : Bool :=
  truthyS inp.tokenIn && truthyS inp.tokenOut && truthyQ inp.amount

/-- Modelled from the spec: §6 Submission "fails with a validation error
if assetIn, assetOut, or amount (must be >0) are missing/invalid" — the
validator the specification describes, for comparison with
`validateOrderInput`. -/
def specValidateOrderInput (inp : OrderInput) : Bool :=
  truthyS inp.tokenIn && truthyS inp.tokenOut &&
    (match inp.amount with
     | none => false
     | some a => decide (0 < a))

/-! ## Worker pool and rate limiter

Modelled from the spec: the BullMQ `Worker` enforcement loop is not part
of `src/`; only its configuration is (`createWorker` passes
`concurrency: config.queue.concurrency` and
`limiter: { max: 100, duration: 60000 }`, `src/queue/orderQueue.ts`
lines 36-40 and 184-206).  The admission semantics below follows §4.4
and §5 of the specification, instantiated with the configured constants:
a job starts executing only while fewer than `queueConcurrency` jobs are
in flight and fewer than `maxOrdersPerMinute` admissions fall in the
rolling 60000-millisecond window; waiting jobs are never dropped.  Time
is a millisecond counter. -/

def rateLimitWindow : ℕ := 60000

structure PoolState where
  waiting : List ℕ
  executing : List ℕ
  admitTimes : List ℕ
  now : ℕ
deriving DecidableEq

/-- Number of admissions inside the rolling window ending now. -/
def windowCount (s : PoolState) : ℕ :=
  (s.admitTimes.filter fun t => s.now < t + rateLimitWindow).length

/-- The scheduler's transitions: a client submission appends to the
waiting queue; a dispatch moves the head of the waiting queue into
execution when both ceilings leave room; a worker finishing releases its
slot; time passes. -/
inductive PoolStep : PoolState → PoolState → Prop
  | submit (s : PoolState) (j : ℕ) :
      PoolStep s { s with waiting := s.waiting ++ [j] }
  | dispatch (s : PoolState) (j : ℕ) (rest : List ℕ)
      (hw : s.waiting = j :: rest)
      (hc : s.executing.length < queueConcurrency)
      (hr : windowCount s < maxOrdersPerMinute) :
      PoolStep s { waiting := rest, executing := j :: s.executing,
                   admitTimes := s.now :: s.admitTimes, now := s.now }
  | finish (s : PoolState) (j : ℕ) (h : j ∈ s.executing) :
      PoolStep s { s with executing := s.executing.erase j }
  | tick (s : PoolState) :
      PoolStep s { s with now := s.now + 1 }

/-- The empty pool at time zero. -/
def initPool : PoolState := ⟨[], [], [], 0⟩

/-- States the scheduler can reach from the empty pool. -/
inductive PoolReachable : PoolState → Prop
  | init : PoolReachable initPool
  | step {s s' : PoolState} : PoolReachable s → PoolStep s s' → PoolReachable s'

/-! ## Basic lemmas about the persistence helpers -/

@[simp] lemma applyQ_none (cur : Option ℚ) : applyQ cur none = cur := rfl

@[simp] lemma applyS_none (cur : Option String) : applyS cur none = cur := rfl

@[simp] lemma applyD_none (cur : Option DexProvider) : applyD cur none = cur := rfl

@[simp] lemma applyR_none (cur : ℕ) : applyR cur none = cur := rfl

@[simp] lemma applyR_some (cur n : ℕ) : applyR cur (some n) = n := rfl

@[simp] lemma applyD_some (cur : Option DexProvider) (d : DexProvider) :
    applyD cur (some d) = some d := rfl

lemma applyQ_some (cur : Option ℚ) (v : ℚ) :
    applyQ cur (some v) = if v = 0 then cur else some v := rfl

lemma applyS_some (cur : Option String) (v : String) :
    applyS cur (some v) = if v = "" then cur else some v := rfl

@[simp] lemma updateOrderStatus_id (row : Order) (st : OrderStatus) (u : OrderUpdates) :
    (updateOrderStatus row st u).id = row.id := rfl

@[simp] lemma updateOrderStatus_tokenIn (row : Order) (st : OrderStatus) (u : OrderUpdates) :
    (updateOrderStatus row st u).tokenIn = row.tokenIn := rfl

@[simp] lemma updateOrderStatus_tokenOut (row : Order) (st : OrderStatus) (u : OrderUpdates) :
    (updateOrderStatus row st u).tokenOut = row.tokenOut := rfl

@[simp] lemma updateOrderStatus_amount (row : Order) (st : OrderStatus) (u : OrderUpdates) :
    (updateOrderStatus row st u).amount = row.amount := rfl

@[simp] lemma updateOrderStatus_slippage (row : Order) (st : OrderStatus) (u : OrderUpdates) :
    (updateOrderStatus row st u).slippage = row.slippage := rfl

@[simp] lemma updateOrderStatus_type (row : Order) (st : OrderStatus) (u : OrderUpdates) :
    (updateOrderStatus row st u).type = row.type := rfl

@[simp] lemma updateOrderStatus_status (row : Order) (st : OrderStatus) (u : OrderUpdates) :
    (updateOrderStatus row st u).status = st := rfl

@[simp] lemma updateOrderStatus_selectedDex (row : Order) (st : OrderStatus) (u : OrderUpdates) :
    (updateOrderStatus row st u).selectedDex = applyD row.selectedDex u.selectedDex := rfl

@[simp] lemma updateOrderStatus_raydiumPrice (row : Order) (st : OrderStatus) (u : OrderUpdates) :
    (updateOrderStatus row st u).raydiumPrice = applyQ row.raydiumPrice u.raydiumPrice := rfl

@[simp] lemma updateOrderStatus_meteoraPrice (row : Order) (st : OrderStatus) (u : OrderUpdates) :
    (updateOrderStatus row st u).meteoraPrice = applyQ row.meteoraPrice u.meteoraPrice := rfl

@[simp] lemma updateOrderStatus_executedPrice (row : Order) (st : OrderStatus) (u : OrderUpdates) :
    (updateOrderStatus row st u).executedPrice = applyQ row.executedPrice u.executedPrice := rfl

@[simp] lemma updateOrderStatus_txHash (row : Order) (st : OrderStatus) (u : OrderUpdates) :
    (updateOrderStatus row st u).txHash = applyS row.txHash u.txHash := rfl

@[simp] lemma updateOrderStatus_error (row : Order) (st : OrderStatus) (u : OrderUpdates) :
    (updateOrderStatus row st u).error = applyS row.error u.error := rfl

@[simp] lemma updateOrderStatus_retryCount (row : Order) (st : OrderStatus) (u : OrderUpdates) :
    (updateOrderStatus row st u).retryCount = applyR row.retryCount u.retryCount := rfl

/-! ## C10: the partial update writes only status plus truthy fields -/

/-- **C10.** `Database.updateOrderStatus` writes the status column plus
exactly those optional columns whose update value is truthy: a falsy
value (absent field, `executedPrice = 0`, empty `error` string, absent
`selectedDex`) is silently skipped and the column — including a
previously stored error — keeps its prior value; `retryCount` alone is
written whenever it is present, including when it is `0`; all columns
the method never names are untouched. -/
theorem updateOrderStatus_frame (row : Order) (st : OrderStatus) (u : OrderUpdates) :
    (updateOrderStatus row st u).status = st ∧
    (updateOrderStatus row st u).id = row.id ∧
    (updateOrderStatus row st u).tokenIn = row.tokenIn ∧
    (updateOrderStatus row st u).tokenOut = row.tokenOut ∧
    (updateOrderStatus row st u).amount = row.amount ∧
    (updateOrderStatus row st u).slippage = row.slippage ∧
    (updateOrderStatus row st u).type = row.type ∧
    (u.selectedDex = none → (updateOrderStatus row st u).selectedDex = row.selectedDex) ∧
    (∀ d, u.selectedDex = some d → (updateOrderStatus row st u).selectedDex = some d) ∧
    (u.raydiumPrice = none ∨ u.raydiumPrice = some 0 →
      (updateOrderStatus row st u).raydiumPrice = row.raydiumPrice) ∧
    (∀ q, u.raydiumPrice = some q → q ≠ 0 →
      (updateOrderStatus row st u).raydiumPrice = some q) ∧
    (u.meteoraPrice = none ∨ u.meteoraPrice = some 0 →
      (updateOrderStatus row st u).meteoraPrice = row.meteoraPrice) ∧
    (∀ q, u.meteoraPrice = some q → q ≠ 0 →
      (updateOrderStatus row st u).meteoraPrice = some q) ∧
    (u.executedPrice = none ∨ u.executedPrice = some 0 →
      (updateOrderStatus row st u).executedPrice = row.executedPrice) ∧
    (∀ q, u.executedPrice = some q → q ≠ 0 →
      (updateOrderStatus row st u).executedPrice = some q) ∧
    (u.txHash = none ∨ u.txHash = some "" →
      (updateOrderStatus row st u).txHash = row.txHash) ∧
    (∀ h, u.txHash = some h → h ≠ "" → (updateOrderStatus row st u).txHash = some h) ∧
    (u.error = none ∨ u.error = some "" →
      (updateOrderStatus row st u).error = row.error) ∧
    (∀ e, u.error = some e → e ≠ "" → (updateOrderStatus row st u).error = some e) ∧
    (u.retryCount = none → (updateOrderStatus row st u).retryCount = row.retryCount) ∧
    (∀ n, u.retryCount = some n → (updateOrderStatus row st u).retryCount = n) := by
  refine ⟨rfl, rfl, rfl, rfl, rfl, rfl, rfl, ?_, ?_, ?_, ?_, ?_, ?_, ?_, ?_, ?_, ?_, ?_, ?_,
    ?_, ?_⟩
  · intro h; simp [h]
  · intro d h; simp [h]
  · rintro (h | h) <;> simp [h, applyQ]
  · intro q h hq; simp [h, applyQ, hq]
  · rintro (h | h) <;> simp [h, applyQ]
  · intro q h hq; simp [h, applyQ, hq]
  · rintro (h | h) <;> simp [h, applyQ]
  · intro q h hq; simp [h, applyQ, hq]
  · rintro (h | h) <;> simp [h, applyS]
  · intro s h hs; simp [h, applyS, hs]
  · rintro (h | h) <;> simp [h, applyS]
  · intro e h he; simp [h, applyS, he]
  · intro h; simp [h]
  · intro n h; simp [h]

/-- Concrete row used by witnesses. -/
def wRow : Order :=
  { id := "order-1", tokenIn := "SOL", tokenOut := "USDC", amount := 3/2,
    slippage := 1/100, type := OrderType.MARKET, status := OrderStatus.PENDING,
    selectedDex := none, raydiumPrice := none, meteoraPrice := none,
    executedPrice := none, txHash := none, error := some "previous failure",
    retryCount := 1 }

/-- Updates with the falsy values the C10 claim singles out. -/
def wFalsyUpdates : OrderUpdates :=
  { selectedDex := none, executedPrice := some 0, error := some "",
    retryCount := some 0 }

/-- Witness for `updateOrderStatus_frame`: an update carrying
`executedPrice = 0`, an empty error string, no `selectedDex`, and
`retryCount = 0` leaves those columns at their prior values except
`retryCount`, which is written as `0`. -/
theorem updateOrderStatus_frame_witness :
    (updateOrderStatus wRow OrderStatus.CONFIRMED wFalsyUpdates).executedPrice =
      wRow.executedPrice ∧
    (updateOrderStatus wRow OrderStatus.CONFIRMED wFalsyUpdates).error = wRow.error ∧
    (updateOrderStatus wRow OrderStatus.CONFIRMED wFalsyUpdates).selectedDex =
      wRow.selectedDex ∧
    (updateOrderStatus wRow OrderStatus.CONFIRMED wFalsyUpdates).retryCount = 0 := by
  obtain ⟨-, -, -, -, -, -, -, hsel, -, -, -, -, -, hexec, -, -, -, herr, -, -, hretry⟩ :=
    updateOrderStatus_frame wRow OrderStatus.CONFIRMED wFalsyUpdates
  exact ⟨hexec (Or.inr rfl), herr (Or.inr rfl), hsel rfl, hretry 0 rfl⟩

/-! ## Venue-selector claims (C3, C4, C9) -/

/-- The constant text of the Raydium liquidity justification contains
the word "liquidity". -/
lemma mentions_liquidity_ray (x y : String) :
    Mentions ("Similar prices, Raydium has higher liquidity ($" ++ x ++ "M vs $" ++ y ++ "M)")
      "liquidity" := by
  refine ⟨"Similar prices, Raydium has higher ", " ($" ++ x ++ "M vs $" ++ y ++ "M)", ?_⟩
  have hsplit : ("Similar prices, Raydium has higher liquidity ($" : String) =
      ("Similar prices, Raydium has higher " ++ "liquidity") ++ " ($" := by decide
  rw [hsplit]
  simp only [String.append_assoc]

/-- The constant text of the Meteora liquidity justification contains
the word "liquidity". -/
lemma mentions_liquidity_met (x y : String) :
    Mentions ("Similar prices, Meteora has higher liquidity ($" ++ x ++ "M vs $" ++ y ++ "M)")
      "liquidity" := by
  refine ⟨"Similar prices, Meteora has higher ", " ($" ++ x ++ "M vs $" ++ y ++ "M)", ?_⟩
  have hsplit : ("Similar prices, Meteora has higher liquidity ($" : String) =
      ("Similar prices, Meteora has higher " ++ "liquidity") ++ " ($" := by decide
  rw [hsplit]
  simp only [String.append_assoc]

/-- **C9.** In the near-tie branch (`diffPct < 0.1`), Raydium is
selected exactly when its liquidity is strictly greater, and a
liquidity tie deterministically selects Meteora (the `else` branch). -/
theorem liquidity_branch (rq mq : DexQuote)
    (hro : 0 < rq.estimatedOutput) (hmo : 0 < mq.estimatedOutput)
    (hdiff : diffPct rq mq < 1 / 10) :
    ((selectBestDex rq mq).selectedDex = DexProvider.RAYDIUM ↔
      mq.liquidity < rq.liquidity) ∧
    (rq.liquidity = mq.liquidity →
      (selectBestDex rq mq).selectedDex = DexProvider.METEORA) := by
  unfold diffPct at hdiff
  simp only [selectBestDex]
  rw [if_pos hdiff]
  constructor
  · by_cases hl : rq.liquidity > mq.liquidity
    · rw [if_pos hl]; simpa using hl
    · rw [if_neg hl]; simpa using hl
  · intro heq
    rw [if_neg (by simp [heq])]

/-- Near-tie quotes with unequal liquidity used as selector witnesses. -/
def simRay : DexQuote :=
  { provider := DexProvider.RAYDIUM, price := 100, fee := 3/1000,
    estimatedOutput := 100, liquidity := 5000000 }

/-- See `simRay`; output differs by 0.05%, liquidity is lower. -/
def simMet : DexQuote :=
  { provider := DexProvider.METEORA, price := 100, fee := 2/1000,
    estimatedOutput := 10005/100, liquidity := 3000000 }

/-- Witness for `liquidity_branch`: outputs 100 vs 100.05 (0.05%
apart), liquidities 5M vs 3M — Raydium is selected. -/
theorem liquidity_branch_witness :
    0 < simRay.estimatedOutput ∧ 0 < simMet.estimatedOutput ∧
    diffPct simRay simMet < 1 / 10 ∧
    (selectBestDex simRay simMet).selectedDex = DexProvider.RAYDIUM := by
  refine ⟨by norm_num [simRay], by norm_num [simMet], by norm_num [diffPct, simRay, simMet, abs_of_pos, abs_of_neg], ?_⟩
  exact (liquidity_branch simRay simMet (by norm_num [simRay]) (by norm_num [simMet])
    (by norm_num [diffPct, simRay, simMet, abs_of_pos, abs_of_neg])).1.mpr (by norm_num [simRay, simMet])

/-- Quotes with identical outputs and identical liquidity. -/
def tieRay : DexQuote :=
  { provider := DexProvider.RAYDIUM, price := 100, fee := 3/1000,
    estimatedOutput := 100, liquidity := 5000000 }

/-- See `tieRay`. -/
def tieMet : DexQuote :=
  { provider := DexProvider.METEORA, price := 100, fee := 2/1000,
    estimatedOutput := 100, liquidity := 5000000 }

/-- **C3 counterexample.** For quotes with `diffPct = 0 < 0.1` and
exactly equal liquidities, `selectBestDex` picks Meteora, which does
not have strictly greater liquidity — so the branch does not always
select a venue of strictly greater liquidity. -/
theorem similar_prices_tie_cex :
    diffPct tieRay tieMet < 1 / 10 ∧
    0 < tieRay.estimatedOutput ∧ 0 < tieMet.estimatedOutput ∧
    (selectBestDex tieRay tieMet).selectedDex = DexProvider.METEORA ∧
    ¬ tieRay.liquidity < tieMet.liquidity ∧ ¬ tieMet.liquidity < tieRay.liquidity := by
  refine ⟨by norm_num [diffPct, tieRay, tieMet], by norm_num [tieRay], by norm_num [tieMet],
    ?_, by norm_num [tieRay, tieMet], by norm_num [tieRay, tieMet]⟩
  have h1 : |tieRay.estimatedOutput - tieMet.estimatedOutput| /
      ((tieRay.estimatedOutput + tieMet.estimatedOutput) / 2) * 100 < 1 / 10 := by
    norm_num [tieRay, tieMet]
  have h2 : ¬ tieRay.liquidity > tieMet.liquidity := by norm_num [tieRay, tieMet]
  simp only [selectBestDex]
  rw [if_pos h1, if_neg h2]

/-- **C3 (amended).** In the near-tie branch, whenever the liquidities
differ the selected venue is the one with strictly greater liquidity
and the justification mentions "liquidity"; a liquidity tie falls to
Meteora (see C9). -/
theorem similar_prices_liquidity (rq mq : DexQuote)
    (hro : 0 < rq.estimatedOutput) (hmo : 0 < mq.estimatedOutput)
    (hdiff : diffPct rq mq < 1 / 10) (hne : rq.liquidity ≠ mq.liquidity) :
    (((selectBestDex rq mq).selectedDex = DexProvider.RAYDIUM ∧
        mq.liquidity < rq.liquidity) ∨
     ((selectBestDex rq mq).selectedDex = DexProvider.METEORA ∧
        rq.liquidity < mq.liquidity)) ∧
    Mentions (selectBestDex rq mq).reason "liquidity" := by
  unfold diffPct at hdiff
  simp only [selectBestDex]
  rw [if_pos hdiff]
  by_cases hl : rq.liquidity > mq.liquidity
  · rw [if_pos hl]
    exact ⟨Or.inl ⟨rfl, hl⟩, mentions_liquidity_ray _ _⟩
  · rw [if_neg hl]
    have hlt : rq.liquidity < mq.liquidity := lt_of_le_of_ne (not_lt.mp hl) hne
    exact ⟨Or.inr ⟨rfl, hlt⟩, mentions_liquidity_met _ _⟩

/-- Witness for `similar_prices_liquidity` at the quotes of
`liquidity_branch_witness`'s scenario. -/
theorem similar_prices_liquidity_witness :
    ((selectBestDex simRay simMet).selectedDex = DexProvider.RAYDIUM ∧
        simMet.liquidity < simRay.liquidity) ∨
      ((selectBestDex simRay simMet).selectedDex = DexProvider.METEORA ∧
        simRay.liquidity < simMet.liquidity) := by
  exact (similar_prices_liquidity simRay simMet (by norm_num [simRay]) (by norm_num [simMet])
    (by norm_num [diffPct, simRay, simMet, abs_of_pos, abs_of_neg]) (by norm_num [simRay, simMet])).1

/-- **C4.** When `diffPct ≥ 0.1`, the venue with the strictly greater
estimated output is selected and the justification contains the
percentage advantage `|outWinner − outLoser| / outLoser * 100`
formatted to three decimal places. -/
theorem better_output_branch (rq mq : DexQuote)
    (hro : 0 < rq.estimatedOutput) (hmo : 0 < mq.estimatedOutput)
    (hdiff : 1 / 10 ≤ diffPct rq mq) :
    ((selectBestDex rq mq).selectedDex = DexProvider.RAYDIUM ∧
      mq.estimatedOutput < rq.estimatedOutput ∧
      Mentions (selectBestDex rq mq).reason
        (toFixed 3 ((rq.estimatedOutput - mq.estimatedOutput) / mq.estimatedOutput * 100))) ∨
    ((selectBestDex rq mq).selectedDex = DexProvider.METEORA ∧
      rq.estimatedOutput < mq.estimatedOutput ∧
      Mentions (selectBestDex rq mq).reason
        (toFixed 3 ((mq.estimatedOutput - rq.estimatedOutput) / rq.estimatedOutput * 100))) := by
  unfold diffPct at hdiff
  have hne : rq.estimatedOutput ≠ mq.estimatedOutput := by
    intro h
    rw [h, sub_self, abs_zero, zero_div, zero_mul] at hdiff
    norm_num at hdiff
  have hnot : ¬ (|rq.estimatedOutput - mq.estimatedOutput| /
      ((rq.estimatedOutput + mq.estimatedOutput) / 2) * 100 < 1 / 10) := not_lt.mpr hdiff
  simp only [selectBestDex]
  rw [if_neg hnot]
  by_cases hgt : rq.estimatedOutput > mq.estimatedOutput
  · rw [if_pos hgt]
    exact Or.inl ⟨rfl, hgt,
      ⟨"Raydium offers ", "% better output (" ++ toFixed 2 rq.estimatedOutput ++ " vs " ++
        toFixed 2 mq.estimatedOutput ++ ")", by simp [String.append_assoc]⟩⟩
  · rw [if_neg hgt]
    have hlt : rq.estimatedOutput < mq.estimatedOutput :=
      lt_of_le_of_ne (not_lt.mp hgt) hne
    exact Or.inr ⟨rfl, hlt,
      ⟨"Meteora offers ", "% better output (" ++ toFixed 2 mq.estimatedOutput ++ " vs " ++
        toFixed 2 rq.estimatedOutput ++ ")", by simp [String.append_assoc]⟩⟩

/-- Quotes 10.5% apart in output, with the lower-output venue holding
more liquidity. -/
def outRay : DexQuote :=
  { provider := DexProvider.RAYDIUM, price := 103, fee := 3/1000,
    estimatedOutput := 100, liquidity := 2000000 }

/-- See `outRay`. -/
def outMet : DexQuote :=
  { provider := DexProvider.METEORA, price := 92, fee := 2/1000,
    estimatedOutput := 90, liquidity := 8000000 }

/-- Witness for `better_output_branch`: outputs 100 vs 90
(`diffPct ≈ 10.5%`) — Raydium is selected despite lower liquidity. -/
theorem better_output_branch_witness :
    0 < outRay.estimatedOutput ∧ 0 < outMet.estimatedOutput ∧
    1 / 10 ≤ diffPct outRay outMet ∧
    (((selectBestDex outRay outMet).selectedDex = DexProvider.RAYDIUM ∧
      outMet.estimatedOutput < outRay.estimatedOutput ∧
      Mentions (selectBestDex outRay outMet).reason
        (toFixed 3 ((outRay.estimatedOutput - outMet.estimatedOutput) /
          outMet.estimatedOutput * 100))) ∨
     ((selectBestDex outRay outMet).selectedDex = DexProvider.METEORA ∧
      outRay.estimatedOutput < outMet.estimatedOutput ∧
      Mentions (selectBestDex outRay outMet).reason
        (toFixed 3 ((outMet.estimatedOutput - outRay.estimatedOutput) /
          outRay.estimatedOutput * 100)))) := by
  refine ⟨by norm_num [outRay], by norm_num [outMet],
    by norm_num [diffPct, outRay, outMet, abs_of_pos, abs_of_neg], ?_⟩
  exact better_output_branch outRay outMet (by norm_num [outRay]) (by norm_num [outMet])
    (by norm_num [diffPct, outRay, outMet, abs_of_pos, abs_of_neg])

/-! ## Settlement slippage claims (C2) -/

/-- An order mid-execution: routed to Raydium with a stored quoted
price of 100 and the default 1% slippage tolerance. -/
def slipOrder : Order :=
  { id := "o-slip", tokenIn := "SOL", tokenOut := "USDC", amount := 1,
    slippage := 1/100, type := OrderType.MARKET, status := OrderStatus.SUBMITTED,
    selectedDex := some DexProvider.RAYDIUM, raydiumPrice := some 100,
    meteoraPrice := some 99, executedPrice := none, txHash := none,
    error := none, retryCount := 0 }

/-- **C2 counterexample.** The slippage draw is
`-slippage + Math.random() * slippage`, which lies in `[-t, 0)`: for an
order with tolerance `t = 0.01 > 0` and quoted price 100 there is *no*
draw `r ∈ [0, 1)` making the executed price exceed the quoted price,
refuting the claim that the offset is sampled over all of `[-t, +t]`
and is strictly positive for some draw. -/
theorem slippage_offset_cex :
    0 < slipOrder.slippage ∧
    ¬ ∃ r : ℚ, 0 ≤ r ∧ r < 1 ∧ ∃ p,
        (executeSwap DexProvider.RAYDIUM slipOrder false (fun _ => 0) r).executedPrice =
          some p ∧ (100 : ℚ) < p := by
  refine ⟨by norm_num [slipOrder], ?_⟩
  rintro ⟨r, h0, h1, p, hp, hgt⟩
  norm_num [executeSwap, slipOrder, jsOrQ] at hp
  rw [← hp] at hgt
  linarith

/-- **C2 (amended).** On a successful settlement the executed price is
the selected venue's stored quoted price times `1 + d` where the
slippage offset `d = -t + r·t` for the uniform draw `r ∈ [0, 1)` — so
`d` ranges over `[-t, 0)` and is never positive for `t > 0` — and the
actual output is `amount × executedPrice × (1 − venueFee)`. -/
theorem executed_price_slippage (order : Order) (dex : DexProvider)
    (q : ℚ) (hashRand : ℕ → ℚ) (r : ℚ)
    (hsel : (order.selectedDex = some DexProvider.RAYDIUM ∧ order.raydiumPrice = some q) ∨
            (order.selectedDex ≠ some DexProvider.RAYDIUM ∧ order.meteoraPrice = some q))
    (hq0 : q ≠ 0) (ht : 0 < order.slippage) (hr0 : 0 ≤ r) (hr1 : r < 1) :
    (executeSwap dex order false hashRand r).executedPrice =
      some (q * (1 + (-order.slippage + r * order.slippage))) ∧
    -order.slippage ≤ -order.slippage + r * order.slippage ∧
    -order.slippage + r * order.slippage < 0 ∧
    (executeSwap dex order false hashRand r).actualOutput =
      some (order.amount * (q * (1 + (-order.slippage + r * order.slippage))) *
        (1 - (if dex = DexProvider.RAYDIUM then 3/1000 else 2/1000))) := by
  have h1 : 0 ≤ r * order.slippage := mul_nonneg hr0 ht.le
  have h2 : r * order.slippage < 1 * order.slippage := mul_lt_mul_of_pos_right hr1 ht
  rcases hsel with ⟨hd, hp⟩ | ⟨hd, hp⟩ <;>
    exact ⟨by simp [executeSwap, hd, hp, jsOrQ, hq0], by linarith, by linarith,
      by simp [executeSwap, hd, hp, jsOrQ, hq0]⟩

/-- Witness for `executed_price_slippage` at `slipOrder` with the draw
`r = 1/2`: executed price `100 × (1 − 0.005)`, fee 0.3%. -/
theorem executed_price_slippage_witness :
    (executeSwap DexProvider.RAYDIUM slipOrder false (fun _ => 0) (1/2)).executedPrice =
      some (100 * (1 + (-slipOrder.slippage + (1/2) * slipOrder.slippage))) ∧
    -slipOrder.slippage ≤ -slipOrder.slippage + (1/2) * slipOrder.slippage ∧
    -slipOrder.slippage + (1/2) * slipOrder.slippage < 0 ∧
    (executeSwap DexProvider.RAYDIUM slipOrder false (fun _ => 0) (1/2)).actualOutput =
      some (slipOrder.amount * (100 * (1 + (-slipOrder.slippage + (1/2) * slipOrder.slippage))) *
        (1 - (if DexProvider.RAYDIUM = DexProvider.RAYDIUM then 3/1000 else 2/1000))) :=
  executed_price_slippage slipOrder DexProvider.RAYDIUM 100 (fun _ => 0) (1/2)
    (Or.inl ⟨rfl, rfl⟩) (by norm_num) (by norm_num [slipOrder]) (by norm_num) (by norm_num)

/-! ## Submission validation claim (C7) -/

/-- A submission with both token symbols present and `amount = -1`. -/
def negAmountInput : OrderInput :=
  { tokenIn := some "SOL", tokenOut := some "USDC",
    amount := some (-1), slippage := none }

/-- **C7 (code bug).** The route guard
`if (!tokenIn || !tokenOut || !amount)` accepts a *negative* amount
(`-1` is truthy), so the order is created and enqueued, while the
specification's validator (amount must be `> 0`) rejects it. -/
theorem negative_amount_accepted :
    validateOrderInput negAmountInput = true ∧
    specValidateOrderInput negAmountInput = false := by
  constructor <;>
    norm_num [validateOrderInput, specValidateOrderInput, negAmountInput, truthyS, truthyQ] <;>
    decide

/-! ## Characterization of one execution attempt -/

/-- A mock transaction hash has 88 characters, so it is never the empty
string (and in particular always passes the truthiness guard of
`updateOrderStatus`). -/
lemma generateMockTxHash_ne_empty (f : ℕ → ℚ) : generateMockTxHash f ≠ "" := by
  intro h
  have hlen := congrArg String.length h
  simp [generateMockTxHash, String.length_mk] at hlen

/-- The settlement failure message is never empty. -/
lemma swapFailMsg_ne_empty (d : DexProvider) :
    d.name ++ " network timeout - transaction failed to confirm" ≠ "" := by
  cases d <;> decide

/-- An attempt re-throws exactly when the settlement draw fails. -/
lemma pf_threw (db : DbState) (env : AttemptEnv) :
    (processOrder db env).threw = env.swapFails := by
  rcases Bool.eq_false_or_eq_true env.swapFails with h | h <;>
    simp only [processOrder, executeSwap, h] <;>
    simp only [eq_self_iff_true, if_true, Bool.false_eq_true, if_false,
      updateOrderStatus_retryCount, applyR_none]
  rcases le_or_lt maxRetries (db.row.retryCount + 1) with hc | hc
  · rw [if_pos hc]
  · rw [if_neg (not_le.mpr hc)]

/-- A failing attempt increments the persisted retry count by one. -/
lemma pf_retryCount (db : DbState) (env : AttemptEnv) (h : env.swapFails = true) :
    (processOrder db env).db.row.retryCount = db.row.retryCount + 1 := by
  simp only [processOrder, executeSwap, h]
  simp only [eq_self_iff_true, if_true, Bool.false_eq_true, if_false,
    updateOrderStatus_retryCount, applyR_none, applyR_some]
  rcases le_or_lt maxRetries (db.row.retryCount + 1) with hc | hc
  · rw [if_pos hc]
    simp only [updateOrderStatus_retryCount, updateOrderStatus_status,
      updateOrderStatus_error, updateOrderStatus_txHash, updateOrderStatus_executedPrice,
      updateOrderStatus_raydiumPrice, updateOrderStatus_meteoraPrice,
      updateOrderStatus_slippage, applyR_none, applyR_some, applyQ_none, applyS_none]
  · rw [if_neg (not_le.mpr hc)]
    simp only [updateOrderStatus_retryCount, updateOrderStatus_status,
      updateOrderStatus_error, updateOrderStatus_txHash, updateOrderStatus_executedPrice,
      updateOrderStatus_raydiumPrice, updateOrderStatus_meteoraPrice,
      updateOrderStatus_slippage, applyR_none, applyR_some, applyQ_none, applyS_none]

/-- A failing attempt leaves the order `failed` when the incremented
count reaches `maxRetries` and `pending` otherwise. -/
lemma pf_status (db : DbState) (env : AttemptEnv) (h : env.swapFails = true) :
    (processOrder db env).db.row.status =
      (if maxRetries ≤ db.row.retryCount + 1 then OrderStatus.FAILED
       else OrderStatus.PENDING) := by
  simp only [processOrder, executeSwap, h]
  simp only [eq_self_iff_true, if_true, Bool.false_eq_true, if_false,
    updateOrderStatus_retryCount, updateOrderStatus_status, applyR_none]
  rcases le_or_lt maxRetries (db.row.retryCount + 1) with hc | hc
  · rw [if_pos hc, if_pos hc]
    simp only [updateOrderStatus_retryCount, updateOrderStatus_status,
      updateOrderStatus_error, updateOrderStatus_txHash, updateOrderStatus_executedPrice,
      updateOrderStatus_raydiumPrice, updateOrderStatus_meteoraPrice,
      updateOrderStatus_slippage, applyR_none, applyR_some, applyQ_none, applyS_none]
  · rw [if_neg (not_le.mpr hc), if_neg (not_le.mpr hc)]
    simp only [updateOrderStatus_retryCount, updateOrderStatus_status,
      updateOrderStatus_error, updateOrderStatus_txHash, updateOrderStatus_executedPrice,
      updateOrderStatus_raydiumPrice, updateOrderStatus_meteoraPrice,
      updateOrderStatus_slippage, applyR_none, applyR_some, applyQ_none, applyS_none]

/-- A failing attempt persists the venue's failure message. -/
lemma pf_error (db : DbState) (env : AttemptEnv) (h : env.swapFails = true) :
    (processOrder db env).db.row.error =
      some ((selectBestDex env.rayQuote env.metQuote).selectedDex.name ++
        " network timeout - transaction failed to confirm") := by
  simp only [processOrder, executeSwap, h]
  simp only [eq_self_iff_true, if_true, Bool.false_eq_true, if_false,
    updateOrderStatus_retryCount, updateOrderStatus_error, applyR_none, applyS_none,
    Option.getD_some]
  rcases le_or_lt maxRetries (db.row.retryCount + 1) with hc | hc
  · rw [if_pos hc]
    simp only [updateOrderStatus_error, applyS_none, applyS_some]
    rw [if_neg (swapFailMsg_ne_empty (selectBestDex env.rayQuote env.metQuote).selectedDex)]
  · rw [if_neg (not_le.mpr hc)]
    simp only [updateOrderStatus_error, applyS_none, applyS_some]
    rw [if_neg (swapFailMsg_ne_empty (selectBestDex env.rayQuote env.metQuote).selectedDex)]

/-- A failing attempt never touches the executed-price column. -/
lemma pf_executedPrice (db : DbState) (env : AttemptEnv) (h : env.swapFails = true) :
    (processOrder db env).db.row.executedPrice = db.row.executedPrice := by
  simp only [processOrder, executeSwap, h]
  simp only [eq_self_iff_true, if_true, Bool.false_eq_true, if_false,
    updateOrderStatus_retryCount, updateOrderStatus_executedPrice, applyR_none, applyQ_none]
  rcases le_or_lt maxRetries (db.row.retryCount + 1) with hc | hc
  · rw [if_pos hc]
    simp only [updateOrderStatus_retryCount, updateOrderStatus_status,
      updateOrderStatus_error, updateOrderStatus_txHash, updateOrderStatus_executedPrice,
      updateOrderStatus_raydiumPrice, updateOrderStatus_meteoraPrice,
      updateOrderStatus_slippage, applyR_none, applyR_some, applyQ_none, applyS_none]
  · rw [if_neg (not_le.mpr hc)]
    simp only [updateOrderStatus_retryCount, updateOrderStatus_status,
      updateOrderStatus_error, updateOrderStatus_txHash, updateOrderStatus_executedPrice,
      updateOrderStatus_raydiumPrice, updateOrderStatus_meteoraPrice,
      updateOrderStatus_slippage, applyR_none, applyR_some, applyQ_none, applyS_none]

/-- A failing attempt never touches the settlement-reference column. -/
lemma pf_txHash (db : DbState) (env : AttemptEnv) (h : env.swapFails = true) :
    (processOrder db env).db.row.txHash = db.row.txHash := by
  simp only [processOrder, executeSwap, h]
  simp only [eq_self_iff_true, if_true, Bool.false_eq_true, if_false,
    updateOrderStatus_retryCount, updateOrderStatus_txHash, applyR_none, applyS_none]
  rcases le_or_lt maxRetries (db.row.retryCount + 1) with hc | hc
  · rw [if_pos hc]
    simp only [updateOrderStatus_retryCount, updateOrderStatus_status,
      updateOrderStatus_error, updateOrderStatus_txHash, updateOrderStatus_executedPrice,
      updateOrderStatus_raydiumPrice, updateOrderStatus_meteoraPrice,
      updateOrderStatus_slippage, applyR_none, applyR_some, applyQ_none, applyS_none]
  · rw [if_neg (not_le.mpr hc)]
    simp only [updateOrderStatus_retryCount, updateOrderStatus_status,
      updateOrderStatus_error, updateOrderStatus_txHash, updateOrderStatus_executedPrice,
      updateOrderStatus_raydiumPrice, updateOrderStatus_meteoraPrice,
      updateOrderStatus_slippage, applyR_none, applyR_some, applyQ_none, applyS_none]

/-- Any attempt stores this attempt's Raydium quoted price (when
truthy). -/
lemma po_raydiumPrice (db : DbState) (env : AttemptEnv) :
    (processOrder db env).db.row.raydiumPrice =
      applyQ db.row.raydiumPrice (some env.rayQuote.price) := by
  rcases Bool.eq_false_or_eq_true env.swapFails with h | h <;>
    simp only [processOrder, executeSwap, h] <;>
    simp only [eq_self_iff_true, if_true, Bool.false_eq_true, if_false,
      updateOrderStatus_retryCount, updateOrderStatus_raydiumPrice, applyR_none, applyQ_none]
  rcases le_or_lt maxRetries (db.row.retryCount + 1) with hc | hc
  · rw [if_pos hc]
    simp only [updateOrderStatus_retryCount, updateOrderStatus_status,
      updateOrderStatus_error, updateOrderStatus_txHash, updateOrderStatus_executedPrice,
      updateOrderStatus_raydiumPrice, updateOrderStatus_meteoraPrice,
      updateOrderStatus_slippage, applyR_none, applyR_some, applyQ_none, applyS_none]
  · rw [if_neg (not_le.mpr hc)]
    simp only [updateOrderStatus_retryCount, updateOrderStatus_status,
      updateOrderStatus_error, updateOrderStatus_txHash, updateOrderStatus_executedPrice,
      updateOrderStatus_raydiumPrice, updateOrderStatus_meteoraPrice,
      updateOrderStatus_slippage, applyR_none, applyR_some, applyQ_none, applyS_none]

/-- Any attempt stores this attempt's Meteora quoted price (when
truthy). -/
lemma po_meteoraPrice (db : DbState) (env : AttemptEnv) :
    (processOrder db env).db.row.meteoraPrice =
      applyQ db.row.meteoraPrice (some env.metQuote.price) := by
  rcases Bool.eq_false_or_eq_true env.swapFails with h | h <;>
    simp only [processOrder, executeSwap, h] <;>
    simp only [eq_self_iff_true, if_true, Bool.false_eq_true, if_false,
      updateOrderStatus_retryCount, updateOrderStatus_meteoraPrice, applyR_none, applyQ_none]
  rcases le_or_lt maxRetries (db.row.retryCount + 1) with hc | hc
  · rw [if_pos hc]
    simp only [updateOrderStatus_retryCount, updateOrderStatus_status,
      updateOrderStatus_error, updateOrderStatus_txHash, updateOrderStatus_executedPrice,
      updateOrderStatus_raydiumPrice, updateOrderStatus_meteoraPrice,
      updateOrderStatus_slippage, applyR_none, applyR_some, applyQ_none, applyS_none]
  · rw [if_neg (not_le.mpr hc)]
    simp only [updateOrderStatus_retryCount, updateOrderStatus_status,
      updateOrderStatus_error, updateOrderStatus_txHash, updateOrderStatus_executedPrice,
      updateOrderStatus_raydiumPrice, updateOrderStatus_meteoraPrice,
      updateOrderStatus_slippage, applyR_none, applyR_some, applyQ_none, applyS_none]

/-- No attempt changes the stored slippage tolerance. -/
lemma po_slippage (db : DbState) (env : AttemptEnv) :
    (processOrder db env).db.row.slippage = db.row.slippage := by
  rcases Bool.eq_false_or_eq_true env.swapFails with h | h <;>
    simp only [processOrder, executeSwap, h] <;>
    simp only [eq_self_iff_true, if_true, Bool.false_eq_true, if_false,
      updateOrderStatus_retryCount, updateOrderStatus_slippage, applyR_none]
  rcases le_or_lt maxRetries (db.row.retryCount + 1) with hc | hc
  · rw [if_pos hc]
    simp only [updateOrderStatus_retryCount, updateOrderStatus_status,
      updateOrderStatus_error, updateOrderStatus_txHash, updateOrderStatus_executedPrice,
      updateOrderStatus_raydiumPrice, updateOrderStatus_meteoraPrice,
      updateOrderStatus_slippage, applyR_none, applyR_some, applyQ_none, applyS_none]
  · rw [if_neg (not_le.mpr hc)]
    simp only [updateOrderStatus_retryCount, updateOrderStatus_status,
      updateOrderStatus_error, updateOrderStatus_txHash, updateOrderStatus_executedPrice,
      updateOrderStatus_raydiumPrice, updateOrderStatus_meteoraPrice,
      updateOrderStatus_slippage, applyR_none, applyR_some, applyQ_none, applyS_none]

/-- Every attempt appends exactly one routing-decision record, built
from the quotes the attempt itself fetched. -/
lemma po_logs (db : DbState) (env : AttemptEnv) :
    (processOrder db env).db.logs = db.logs ++ [attemptLog db.row.id env] := by
  rcases Bool.eq_false_or_eq_true env.swapFails with h | h <;>
    simp only [processOrder, executeSwap, h] <;>
    simp only [eq_self_iff_true, if_true, Bool.false_eq_true, if_false,
      updateOrderStatus_retryCount, applyR_none]
  rcases le_or_lt maxRetries (db.row.retryCount + 1) with hc | hc
  · rw [if_pos hc]
  · rw [if_neg (not_le.mpr hc)]

/-- Every attempt's first emitted event is the `routing` status: an
attempt always restarts at the routing phase. -/
lemma po_events_head (db : DbState) (env : AttemptEnv) :
    (processOrder db env).events.head? = some (Event.status OrderStatus.ROUTING) := by
  rcases Bool.eq_false_or_eq_true env.swapFails with h | h <;>
    simp only [processOrder, executeSwap, h] <;>
    simp only [eq_self_iff_true, if_true, Bool.false_eq_true, if_false,
      updateOrderStatus_retryCount, applyR_none]
  · rcases le_or_lt maxRetries (db.row.retryCount + 1) with hc | hc
    · rw [if_pos hc]; rfl
    · rw [if_neg (not_le.mpr hc)]; rfl
  · rfl

/-- When a failing attempt exhausts the retries, the `failed` event
carrying the error message and final count is emitted. -/
lemma pf_failed_event (db : DbState) (env : AttemptEnv) (h : env.swapFails = true)
    (hge : maxRetries ≤ db.row.retryCount + 1) :
    Event.failed ((selectBestDex env.rayQuote env.metQuote).selectedDex.name ++
        " network timeout - transaction failed to confirm")
      (db.row.retryCount + 1) ∈ (processOrder db env).events := by
  simp only [processOrder, executeSwap, h]
  simp only [eq_self_iff_true, if_true, Bool.false_eq_true, if_false,
    updateOrderStatus_retryCount, applyR_none, Option.getD_some]
  rw [if_pos hge]
  exact List.mem_append_right _ (List.mem_singleton_self _)

/-- A successful attempt does not re-throw and leaves the retry count
unchanged. -/
lemma pok_threw_retry (db : DbState) (env : AttemptEnv) (h : env.swapFails = false) :
    (processOrder db env).threw = false ∧
    (processOrder db env).db.row.retryCount = db.row.retryCount := by
  constructor <;>
    simp only [processOrder, executeSwap, h] <;>
    simp only [eq_self_iff_true, if_true, Bool.false_eq_true, if_false,
      updateOrderStatus_retryCount, applyR_none]

/-- A successful attempt confirms the order. -/
lemma pok_status (db : DbState) (env : AttemptEnv) (h : env.swapFails = false) :
    (processOrder db env).db.row.status = OrderStatus.CONFIRMED := by
  simp only [processOrder, executeSwap, h]
  simp only [eq_self_iff_true, if_true, Bool.false_eq_true, if_false,
    updateOrderStatus_status]

/-- A successful attempt leaves the error column untouched (it is never
cleared). -/
lemma pok_error (db : DbState) (env : AttemptEnv) (h : env.swapFails = false) :
    (processOrder db env).db.row.error = db.row.error := by
  simp only [processOrder, executeSwap, h]
  simp only [eq_self_iff_true, if_true, Bool.false_eq_true, if_false,
    updateOrderStatus_error, applyS_none]

/-- A successful attempt stores the generated settlement reference. -/
lemma pok_txHash (db : DbState) (env : AttemptEnv) (h : env.swapFails = false) :
    (processOrder db env).db.row.txHash = some (generateMockTxHash env.hashRand) := by
  simp only [processOrder, executeSwap, h]
  simp only [eq_self_iff_true, if_true, Bool.false_eq_true, if_false,
    updateOrderStatus_txHash, applyS_none]
  rw [applyS_some, if_neg (generateMockTxHash_ne_empty env.hashRand)]

/-- The executed price a successful attempt computes: the selected
venue's stored quoted price (with `basePrice` fallback) times one plus
the slippage offset. -/
def execPriceOf (db : DbState) (env : AttemptEnv) : ℚ :=
  if (selectBestDex env.rayQuote env.metQuote).selectedDex = DexProvider.RAYDIUM then
    jsOrQ (applyQ db.row.raydiumPrice (some env.rayQuote.price)) basePrice *
      (1 + (-db.row.slippage + env.slipR * db.row.slippage))
  else
    jsOrQ (applyQ db.row.meteoraPrice (some env.metQuote.price)) basePrice *
      (1 + (-db.row.slippage + env.slipR * db.row.slippage))

/-- A successful attempt writes the executed price through the
truthiness-guarded update. -/
lemma pok_executedPrice (db : DbState) (env : AttemptEnv) (h : env.swapFails = false) :
    (processOrder db env).db.row.executedPrice =
      applyQ db.row.executedPrice (some (execPriceOf db env)) := by
  simp only [processOrder, executeSwap, h]
  simp only [eq_self_iff_true, if_true, Bool.false_eq_true, if_false, execPriceOf,
    updateOrderStatus_executedPrice, updateOrderStatus_selectedDex,
    updateOrderStatus_raydiumPrice, updateOrderStatus_meteoraPrice,
    updateOrderStatus_slippage, applyQ_none, applyD_none, applyD_some,
    Option.some.injEq]

/-! ## Scheduler lemmas and the system invariant -/

/-- A finished job is never re-processed: BullMQ does not re-run a
completed or exhausted job. -/
lemma runAttempt_finished (js : JobState) (env : AttemptEnv) (h : js.finished = true) :
    runAttempt js env = js := by
  simp only [runAttempt, h, if_true]

/-- A tick on an unfinished job whose settlement draw fails re-enters
the scheduler with one fewer attempt (leaving it when attempts are
exhausted). -/
lemma runAttempt_fail (js : JobState) (env : AttemptEnv)
    (hf : js.finished = false) (he : env.swapFails = true) :
    runAttempt js env =
      { db := (processOrder js.db env).db, attemptsLeft := js.attemptsLeft - 1,
        finished := decide (js.attemptsLeft ≤ 1) } := by
  simp only [runAttempt, hf, Bool.false_eq_true, if_false, pf_threw, he, if_true]

/-- A tick on an unfinished job whose settlement succeeds completes the
job. -/
lemma runAttempt_ok (js : JobState) (env : AttemptEnv)
    (hf : js.finished = false) (he : env.swapFails = false) :
    runAttempt js env =
      { db := (processOrder js.db env).db, attemptsLeft := js.attemptsLeft - 1,
        finished := true } := by
  simp only [runAttempt, hf, Bool.false_eq_true, if_false, pf_threw, he]

/-- The scheduler invariant: the persisted retry count and the
remaining BullMQ attempts stay in lockstep (their sum is `maxRetries`
while the job is live), and a terminal persisted status coincides with
the job having left the scheduler. -/
def SysInv (js : JobState) : Prop :=
  js.db.row.retryCount + js.attemptsLeft ≤ maxRetries ∧
  (js.finished = false →
    js.db.row.retryCount + js.attemptsLeft = maxRetries ∧ 1 ≤ js.attemptsLeft) ∧
  (js.db.row.status = OrderStatus.FAILED → js.finished = true) ∧
  (js.db.row.status = OrderStatus.CONFIRMED → js.finished = true)

/-- One scheduler tick preserves the invariant. -/
lemma runAttempt_SysInv (js : JobState) (env : AttemptEnv) (h : SysInv js) :
    SysInv (runAttempt js env) := by
  obtain ⟨h1, h2, h3, h4⟩ := h
  cases hf : js.finished with
  | true => rw [runAttempt_finished js env hf]; exact ⟨h1, h2, h3, h4⟩
  | false =>
    obtain ⟨hsum, hal⟩ := h2 hf
    cases he : env.swapFails with
    | true =>
      rw [runAttempt_fail js env hf he]
      refine ⟨?_, ?_, ?_, ?_⟩
      · simp only [pf_retryCount js.db env he]; omega
      · intro hfin
        have hgt : ¬ js.attemptsLeft ≤ 1 := by simpa using hfin
        simp only [pf_retryCount js.db env he]
        omega
      · intro hst
        simp only [pf_status js.db env he] at hst
        rcases le_or_lt maxRetries (js.db.row.retryCount + 1) with hge | hlt
        · simp only [decide_eq_true_eq]; omega
        · rw [if_neg (not_le.mpr hlt)] at hst; simp at hst
      · intro hst
        simp only [pf_status js.db env he] at hst
        rcases le_or_lt maxRetries (js.db.row.retryCount + 1) with hge | hlt
        · rw [if_pos hge] at hst; simp at hst
        · rw [if_neg (not_le.mpr hlt)] at hst; simp at hst
    | false =>
      rw [runAttempt_ok js env hf he]
      refine ⟨?_, ?_, fun _ => rfl, fun _ => rfl⟩
      · simp only [(pok_threw_retry js.db env he).2]; omega
      · intro hfin; simp at hfin

/-- The invariant holds along any sequence of ticks. -/
lemma runAttempts_SysInv (envs : List AttemptEnv) (js : JobState) (h : SysInv js) :
    SysInv (runAttempts js envs) := by
  induction envs generalizing js with
  | nil => exact h
  | cons e es ih => exact ih (runAttempt js e) (runAttempt_SysInv js e h)

/-- A freshly enqueued order satisfies the invariant. -/
lemma initialJob_SysInv (id : String) (inp : OrderInput) : SysInv (initialJob id inp) := by
  refine ⟨?_, ?_, ?_, ?_⟩ <;> simp [initialJob, createOrder, maxRetries]

/-! ## C6: the retry bound and terminal idempotence -/

/-- **C6.** Along every reachable sequence of scheduler ticks from a
fresh order, the persisted retry count never exceeds `maxRetries = 3`,
and once the order is `failed` the job has left the scheduler, so any
further tick leaves the job — and hence the persisted record —
unchanged. -/
theorem retry_bound_and_terminal_stability (id : String) (inp : OrderInput)
    (envs : List AttemptEnv) :
    (runAttempts (initialJob id inp) envs).db.row.retryCount ≤ maxRetries ∧
    ((runAttempts (initialJob id inp) envs).db.row.status = OrderStatus.FAILED →
      ∀ env, runAttempt (runAttempts (initialJob id inp) envs) env =
        runAttempts (initialJob id inp) envs) := by
  obtain ⟨h1, h2, h3, h4⟩ :=
    runAttempts_SysInv envs (initialJob id inp) (initialJob_SysInv id inp)
  exact ⟨le_trans (Nat.le_add_right _ _) h1,
    fun hst env => runAttempt_finished _ env (h3 hst)⟩

/-- Submission used by scheduler witnesses. -/
def wInput : OrderInput :=
  { tokenIn := some "SOL", tokenOut := some "USDC", amount := some 2, slippage := none }

/-- An attempt environment whose settlement draw fails. -/
def envFail : AttemptEnv :=
  { rayQuote := tieRay, metQuote := tieMet, swapFails := true,
    hashRand := fun _ => 0, slipR := 0 }

/-- An attempt environment whose settlement succeeds, with slippage
draw 1/2. -/
def envOk : AttemptEnv :=
  { rayQuote := tieRay, metQuote := tieMet, swapFails := false,
    hashRand := fun _ => 0, slipR := 1/2 }

/-- Three consecutive settlement failures leave the order `failed` with
retry count 3. -/
lemma three_failures_failed :
    (runAttempts (initialJob "w6" wInput) [envFail, envFail, envFail]).db.row.status =
      OrderStatus.FAILED := by
  show (runAttempt (runAttempt (runAttempt (initialJob "w6" wInput) envFail) envFail)
      envFail).db.row.status = _
  rw [runAttempt_fail _ _ rfl rfl, runAttempt_fail _ _ rfl rfl, runAttempt_fail _ _ rfl rfl]
  show (processOrder (processOrder (processOrder (initialJob "w6" wInput).db envFail).db
      envFail).db envFail).db.row.status = _
  rw [pf_status _ _ rfl, pf_retryCount _ _ rfl, pf_retryCount _ _ rfl]
  norm_num [initialJob, createOrder, maxRetries]

/-- Witness for `retry_bound_and_terminal_stability`: after three
failing attempts the order is `failed`, its retry count is within the
bound, and one more scheduler tick leaves the job unchanged. -/
theorem retry_bound_and_terminal_stability_witness :
    (runAttempts (initialJob "w6" wInput) [envFail, envFail, envFail]).db.row.retryCount ≤
      maxRetries ∧
    runAttempt (runAttempts (initialJob "w6" wInput) [envFail, envFail, envFail]) envFail =
      runAttempts (initialJob "w6" wInput) [envFail, envFail, envFail] :=
  ⟨(retry_bound_and_terminal_stability "w6" wInput [envFail, envFail, envFail]).1,
   (retry_bound_and_terminal_stability "w6" wInput [envFail, envFail, envFail]).2
     three_failures_failed envFail⟩

/-! ## C5: the retry policy -/

/-- **C5.** On a failing attempt the persisted retry count is
incremented by one; if the incremented count reaches `maxRetries` the
order is persisted `failed` with the non-empty error message and the
count, and a `failed` event carrying both is emitted; otherwise it is
persisted `pending` with the error and incremented count and, while
attempts remain, the job stays in the scheduler for a re-attempt; every
attempt (in particular the re-attempt) starts at the routing phase and
logs a routing decision built from its own freshly fetched quotes. -/
theorem retry_policy (js : JobState) (env : AttemptEnv)
    (hf : js.finished = false) (hfail : env.swapFails = true) :
    (processOrder js.db env).threw = true ∧
    (runAttempt js env).db.row.retryCount = js.db.row.retryCount + 1 ∧
    (maxRetries ≤ js.db.row.retryCount + 1 →
      (runAttempt js env).db.row.status = OrderStatus.FAILED ∧
      (∃ m, m ≠ "" ∧ (runAttempt js env).db.row.error = some m ∧
        Event.failed m (js.db.row.retryCount + 1) ∈ (processOrder js.db env).events)) ∧
    (js.db.row.retryCount + 1 < maxRetries →
      (runAttempt js env).db.row.status = OrderStatus.PENDING ∧
      (∃ m, m ≠ "" ∧ (runAttempt js env).db.row.error = some m) ∧
      (1 < js.attemptsLeft → (runAttempt js env).finished = false)) ∧
    (runAttempt js env).db.logs = js.db.logs ++ [attemptLog js.db.row.id env] ∧
    (∀ db2 env2, (processOrder db2 env2).events.head? =
        some (Event.status OrderStatus.ROUTING) ∧
      (processOrder db2 env2).db.logs = db2.logs ++ [attemptLog db2.row.id env2]) := by
  refine ⟨by rw [pf_threw, hfail], ?_, ?_, ?_, ?_, fun db2 env2 =>
    ⟨po_events_head db2 env2, po_logs db2 env2⟩⟩
  · rw [runAttempt_fail js env hf hfail]
    exact pf_retryCount js.db env hfail
  · intro hge
    constructor
    · rw [runAttempt_fail js env hf hfail]
      show (processOrder js.db env).db.row.status = _
      rw [pf_status js.db env hfail, if_pos hge]
    · refine ⟨(selectBestDex env.rayQuote env.metQuote).selectedDex.name ++
        " network timeout - transaction failed to confirm",
        swapFailMsg_ne_empty _, ?_, pf_failed_event js.db env hfail hge⟩
      rw [runAttempt_fail js env hf hfail]
      exact pf_error js.db env hfail
  · intro hlt
    refine ⟨?_, ⟨(selectBestDex env.rayQuote env.metQuote).selectedDex.name ++
        " network timeout - transaction failed to confirm",
        swapFailMsg_ne_empty _, ?_⟩, ?_⟩
    · rw [runAttempt_fail js env hf hfail]
      show (processOrder js.db env).db.row.status = _
      rw [pf_status js.db env hfail, if_neg (not_le.mpr hlt)]
    · rw [runAttempt_fail js env hf hfail]
      exact pf_error js.db env hfail
    · intro hal
      rw [runAttempt_fail js env hf hfail]
      show decide (js.attemptsLeft ≤ 1) = false
      simp only [decide_eq_false_iff_not]
      omega
  · rw [runAttempt_fail js env hf hfail]
    exact po_logs js.db env

/-- Witness for `retry_policy`: the first failing attempt of a fresh
order increments the count to 1 and re-persists the order `pending`. -/
theorem retry_policy_witness :
    (processOrder (initialJob "w5" wInput).db envFail).threw = true ∧
    (runAttempt (initialJob "w5" wInput) envFail).db.row.retryCount =
      (initialJob "w5" wInput).db.row.retryCount + 1 ∧
    (runAttempt (initialJob "w5" wInput) envFail).db.row.status = OrderStatus.PENDING := by
  obtain ⟨ht, hr, -, hlt, -, -⟩ := retry_policy (initialJob "w5" wInput) envFail rfl rfl
  exact ⟨ht, hr, (hlt (by decide)).1⟩

/-! ## C1: field nullability at terminal states -/

/-- `applyQ` keeps a nonzero-or-absent column nonzero-or-absent. -/
lemma applyQ_preserve_nz (cur : Option ℚ) (p : ℚ)
    (hcur : ∀ v, cur = some v → v ≠ 0) :
    ∀ v, applyQ cur (some p) = some v → v ≠ 0 := by
  intro v hv
  by_cases hp : p = 0
  · rw [applyQ_some, if_pos hp] at hv
    exact hcur v hv
  · rw [applyQ_some, if_neg hp] at hv
    cases hv
    exact hp

/-- `x || d` is nonzero when `x` is nonzero-or-absent and `d` is
nonzero. -/
lemma jsOrQ_nz (x : Option ℚ) (d : ℚ) (hx : ∀ v, x = some v → v ≠ 0) (hd : d ≠ 0) :
    jsOrQ x d ≠ 0 := by
  cases x with
  | none => simpa [jsOrQ] using hd
  | some v =>
    by_cases hv : v = 0
    · simpa [jsOrQ, hv] using hd
    · simpa [jsOrQ, hv] using hx v rfl

/-- With a tolerance in `(0, 1)` and a draw in `[0, 1)`, the executed
price of a successful settlement is nonzero (so the truthiness-guarded
update does write it). -/
lemma execPriceOf_nz (db : DbState) (env : AttemptEnv)
    (hray : ∀ v, db.row.raydiumPrice = some v → v ≠ 0)
    (hmet : ∀ v, db.row.meteoraPrice = some v → v ≠ 0)
    (ht0 : 0 < db.row.slippage) (ht1 : db.row.slippage < 1)
    (hr0 : 0 ≤ env.slipR) (hr1 : env.slipR < 1) : execPriceOf db env ≠ 0 := by
  have hfactor : 0 < 1 + (-db.row.slippage + env.slipR * db.row.slippage) := by nlinarith
  unfold execPriceOf
  split_ifs
  · exact mul_ne_zero
      (jsOrQ_nz _ _ (applyQ_preserve_nz _ _ hray) (by norm_num [basePrice]))
      (ne_of_gt hfactor)
  · exact mul_ne_zero
      (jsOrQ_nz _ _ (applyQ_preserve_nz _ _ hmet) (by norm_num [basePrice]))
      (ne_of_gt hfactor)

/-- The field-correlation invariant of the order record: the executed
price is set exactly on `confirmed` rows (which also carry a settlement
reference), `failed` rows carry a non-empty error and the exhausted
count, stored quoted prices are never zero, and the tolerance stays in
`(0, 1)`. -/
def FieldInv (js : JobState) : Prop :=
  ((js.db.row.executedPrice ≠ none) ↔ js.db.row.status = OrderStatus.CONFIRMED) ∧
  (js.db.row.status = OrderStatus.CONFIRMED → js.db.row.txHash ≠ none) ∧
  (js.db.row.status = OrderStatus.FAILED →
    js.db.row.error ≠ none ∧ js.db.row.retryCount = maxRetries) ∧
  (∀ v, js.db.row.raydiumPrice = some v → v ≠ 0) ∧
  (∀ v, js.db.row.meteoraPrice = some v → v ≠ 0) ∧
  0 < js.db.row.slippage ∧ js.db.row.slippage < 1

/-- One scheduler tick with a well-formed slippage draw preserves the
field-correlation invariant. -/
lemma runAttempt_FieldInv (js : JobState) (env : AttemptEnv)
    (hwf : 0 ≤ env.slipR ∧ env.slipR < 1)
    (hs : SysInv js) (h : FieldInv js) : FieldInv (runAttempt js env) := by
  obtain ⟨hiff, htx, hfailinv, hray, hmet, ht0, ht1⟩ := h
  obtain ⟨hsum1, hlive, hfailfin, hconffin⟩ := hs
  cases hf : js.finished with
  | true => rw [runAttempt_finished js env hf]; exact ⟨hiff, htx, hfailinv, hray, hmet, ht0, ht1⟩
  | false =>
    obtain ⟨hsum, hal⟩ := hlive hf
    have hnotconf : js.db.row.status ≠ OrderStatus.CONFIRMED := fun hc => by
      rw [hconffin hc] at hf; cases hf
    have hexec_none : js.db.row.executedPrice = none := by
      by_contra hne
      exact hnotconf (hiff.mp hne)
    cases he : env.swapFails with
    | true =>
      rw [runAttempt_fail js env hf he]
      refine ⟨?_, ?_, ?_, ?_, ?_, ?_, ?_⟩
      · show ((processOrder js.db env).db.row.executedPrice ≠ none) ↔
          (processOrder js.db env).db.row.status = OrderStatus.CONFIRMED
        rw [pf_executedPrice js.db env he, pf_status js.db env he, hexec_none]
        rcases le_or_lt maxRetries (js.db.row.retryCount + 1) with hge | hlt
        · rw [if_pos hge]; simp
        · rw [if_neg (not_le.mpr hlt)]; simp
      · intro hst
        replace hst : (processOrder js.db env).db.row.status = OrderStatus.CONFIRMED := hst
        rw [pf_status js.db env he] at hst
        rcases le_or_lt maxRetries (js.db.row.retryCount + 1) with hge | hlt
        · rw [if_pos hge] at hst; cases hst
        · rw [if_neg (not_le.mpr hlt)] at hst; cases hst
      · intro hst
        replace hst : (processOrder js.db env).db.row.status = OrderStatus.FAILED := hst
        rw [pf_status js.db env he] at hst
        constructor
        · show (processOrder js.db env).db.row.error ≠ none
          rw [pf_error js.db env he]
          simp
        · show (processOrder js.db env).db.row.retryCount = maxRetries
          rw [pf_retryCount js.db env he]
          rcases le_or_lt maxRetries (js.db.row.retryCount + 1) with hge | hlt
          · omega
          · rw [if_neg (not_le.mpr hlt)] at hst; cases hst
      · show ∀ v, (processOrder js.db env).db.row.raydiumPrice = some v → v ≠ 0
        rw [po_raydiumPrice js.db env]
        exact applyQ_preserve_nz _ _ hray
      · show ∀ v, (processOrder js.db env).db.row.meteoraPrice = some v → v ≠ 0
        rw [po_meteoraPrice js.db env]
        exact applyQ_preserve_nz _ _ hmet
      · show 0 < (processOrder js.db env).db.row.slippage
        rw [po_slippage js.db env]; exact ht0
      · show (processOrder js.db env).db.row.slippage < 1
        rw [po_slippage js.db env]; exact ht1
    | false =>
      rw [runAttempt_ok js env hf he]
      have hexec : (processOrder js.db env).db.row.executedPrice =
          some (execPriceOf js.db env) := by
        rw [pok_executedPrice js.db env he, hexec_none, applyQ_some,
          if_neg (execPriceOf_nz js.db env hray hmet ht0 ht1 hwf.1 hwf.2)]
      refine ⟨?_, ?_, ?_, ?_, ?_, ?_, ?_⟩
      · show ((processOrder js.db env).db.row.executedPrice ≠ none) ↔
          (processOrder js.db env).db.row.status = OrderStatus.CONFIRMED
        rw [hexec, pok_status js.db env he]
        simp
      · intro _
        show (processOrder js.db env).db.row.txHash ≠ none
        rw [pok_txHash js.db env he]
        simp
      · intro hst
        replace hst : (processOrder js.db env).db.row.status = OrderStatus.FAILED := hst
        rw [pok_status js.db env he] at hst
        cases hst
      · show ∀ v, (processOrder js.db env).db.row.raydiumPrice = some v → v ≠ 0
        rw [po_raydiumPrice js.db env]
        exact applyQ_preserve_nz _ _ hray
      · show ∀ v, (processOrder js.db env).db.row.meteoraPrice = some v → v ≠ 0
        rw [po_meteoraPrice js.db env]
        exact applyQ_preserve_nz _ _ hmet
      · show 0 < (processOrder js.db env).db.row.slippage
        rw [po_slippage js.db env]; exact ht0
      · show (processOrder js.db env).db.row.slippage < 1
        rw [po_slippage js.db env]; exact ht1

/-- Both invariants hold along any sequence of well-formed ticks. -/
lemma runAttempts_SysInv_FieldInv (envs : List AttemptEnv) (js : JobState)
    (hwf : ∀ env ∈ envs, 0 ≤ env.slipR ∧ env.slipR < 1)
    (hs : SysInv js) (h : FieldInv js) :
    SysInv (runAttempts js envs) ∧ FieldInv (runAttempts js envs) := by
  induction envs generalizing js with
  | nil => exact ⟨hs, h⟩
  | cons e es ih =>
    exact ih (runAttempt js e) (fun env hmem => hwf env (List.mem_cons_of_mem _ hmem))
      (runAttempt_SysInv js e hs)
      (runAttempt_FieldInv js e (hwf e (List.mem_cons_self _ _)) hs h)

/-- A fresh order (tolerance supplied in `[0, 1)` or defaulted)
satisfies the field-correlation invariant. -/
lemma initialJob_FieldInv (id : String) (inp : OrderInput)
    (hslip : ∀ t, inp.slippage = some t → 0 ≤ t ∧ t < 1) :
    FieldInv (initialJob id inp) := by
  refine ⟨by simp [initialJob, createOrder], by simp [initialJob, createOrder],
    by simp [initialJob, createOrder], by simp [initialJob, createOrder],
    by simp [initialJob, createOrder], ?_, ?_⟩ <;>
    simp only [initialJob, createOrder] <;>
    rcases hx : inp.slippage with - | t
  · norm_num [jsOrQ, defaultSlippage]
  · obtain ⟨h0, h1⟩ := hslip t hx
    by_cases ht : t = 0
    · simp only [jsOrQ, ht, if_pos rfl]
      norm_num [defaultSlippage]
    · simp only [jsOrQ, if_neg ht]
      exact lt_of_le_of_ne h0 (Ne.symm ht)
  · norm_num [jsOrQ, defaultSlippage]
  · obtain ⟨h0, h1⟩ := hslip t hx
    by_cases ht : t = 0
    · simp only [jsOrQ, ht, if_pos rfl]
      norm_num [defaultSlippage]
    · simp only [jsOrQ, if_neg ht]
      exact h1

/-- **C1 (amended).** From a fresh order whose supplied slippage
tolerance is below 1 (or omitted/zero, defaulting to 0.01), at any
point between attempts: a `failed` order carries a non-empty error and
the exhausted retry count 3; a `confirmed` order carries a settlement
reference and executed price; and executed price is set if and only if
the status is `confirmed`.  Two caveats the counterexample exhibits:
the error field of a `confirmed` order may retain the message of an
earlier failed attempt (the update never clears it), so the two field
groups are not mutually exclusive; and at the excluded tolerance
`t = 1` with settlement draw `r = 0` the executed price computes to
`0`, is skipped by the truthiness guard, and a `confirmed` order ends
with a null executed price, so the restriction below 1 is genuinely
needed. -/
theorem terminal_field_correlation (id : String) (inp : OrderInput)
    (envs : List AttemptEnv)
    (hslip : ∀ t, inp.slippage = some t → 0 ≤ t ∧ t < 1)
    (hwf : ∀ env ∈ envs, 0 ≤ env.slipR ∧ env.slipR < 1) :
    ((runAttempts (initialJob id inp) envs).db.row.status = OrderStatus.FAILED →
      (runAttempts (initialJob id inp) envs).db.row.error ≠ none ∧
      (runAttempts (initialJob id inp) envs).db.row.retryCount = maxRetries) ∧
    ((runAttempts (initialJob id inp) envs).db.row.status = OrderStatus.CONFIRMED →
      (runAttempts (initialJob id inp) envs).db.row.txHash ≠ none ∧
      (runAttempts (initialJob id inp) envs).db.row.executedPrice ≠ none) ∧
    ((runAttempts (initialJob id inp) envs).db.row.executedPrice ≠ none ↔
      (runAttempts (initialJob id inp) envs).db.row.status = OrderStatus.CONFIRMED) := by
  obtain ⟨-, hiff, htx, hfail, -⟩ :=
    runAttempts_SysInv_FieldInv envs (initialJob id inp) hwf
      (initialJob_SysInv id inp) (initialJob_FieldInv id inp hslip)
  exact ⟨hfail, fun hc => ⟨htx hc, hiff.mpr hc⟩, hiff⟩

/-- Witness for `terminal_field_correlation`: a single successful
attempt on a fresh order. -/
theorem terminal_field_correlation_witness :
    (∀ t, wInput.slippage = some t → 0 ≤ t ∧ t < 1) ∧
    (∀ env ∈ [envOk], 0 ≤ env.slipR ∧ env.slipR < 1) ∧
    ((runAttempts (initialJob "w1" wInput) [envOk]).db.row.executedPrice ≠ none ↔
      (runAttempts (initialJob "w1" wInput) [envOk]).db.row.status =
        OrderStatus.CONFIRMED) := by
  refine ⟨by simp [wInput], by simp [envOk]; norm_num, ?_⟩
  exact (terminal_field_correlation "w1" wInput [envOk] (by simp [wInput])
    (by simp [envOk]; norm_num)).2.2

/-- With identical outputs and identical liquidities the selector
falls to the `else` branch, Meteora. -/
lemma tie_select_meteora :
    (selectBestDex tieRay tieMet).selectedDex = DexProvider.METEORA := by
  have h1 : |tieRay.estimatedOutput - tieMet.estimatedOutput| /
      ((tieRay.estimatedOutput + tieMet.estimatedOutput) / 2) * 100 < 1 / 10 := by
    norm_num [tieRay, tieMet]
  have h2 : ¬ tieRay.liquidity > tieMet.liquidity := by norm_num [tieRay, tieMet]
  simp only [selectBestDex]
  rw [if_pos h1, if_neg h2]

/-- A submission carrying the spec-valid tolerance `t = 1` (spec §3:
tolerance in `(0, 1]`). -/
def fullTolInput : OrderInput :=
  { tokenIn := some "SOL", tokenOut := some "USDC", amount := some 2,
    slippage := some 1 }

/-- A successful attempt whose slippage draw is `r = 0`. -/
def envOkZero : AttemptEnv :=
  { rayQuote := tieRay, metQuote := tieMet, swapFails := false,
    hashRand := fun _ => 0, slipR := 0 }

/-- At tolerance `t = 1` and draw `r = 0`, the executed price the
successful settlement computes is `100 × (1 + (−1 + 0·1)) = 0`. -/
lemma execPriceOf_fullTol_zero :
    execPriceOf (initialJob "c1full" fullTolInput).db envOkZero = 0 := by
  have hsel := tie_select_meteora
  simp only [execPriceOf, envOkZero]
  rw [hsel, if_neg (by decide)]
  simp only [initialJob, createOrder, fullTolInput]
  norm_num [jsOrQ, applyQ, tieMet, basePrice, defaultSlippage]

/-- **C1 counterexample.** Two spec-valid runs refute the claimed field
correlation.  First, a failing attempt followed by a successful one
leaves the order `confirmed` while its error column still holds the
first attempt's failure message: the `confirmed` field group and the
error field are not mutually exclusive.  Second, an order with
tolerance exactly `1` that settles successfully with slippage draw `0`
computes an executed price of `0`, which the truthiness guard of
`updateOrderStatus` skips — the order ends `confirmed` with a *null*
executed price, refuting "executed price is set if and only if the
status is confirmed" at that tolerance. -/
theorem confirmed_retains_stale_error :
    ((runAttempts (initialJob "c1" wInput) [envFail, envOk]).db.row.status =
      OrderStatus.CONFIRMED ∧
     (runAttempts (initialJob "c1" wInput) [envFail, envOk]).db.row.error ≠ none) ∧
    ((runAttempts (initialJob "c1full" fullTolInput) [envOkZero]).db.row.status =
      OrderStatus.CONFIRMED ∧
     (runAttempts (initialJob "c1full" fullTolInput) [envOkZero]).db.row.executedPrice =
      none) := by
  have hjs1f : (runAttempt (initialJob "c1" wInput) envFail).finished = false := by
    rw [runAttempt_fail _ _ rfl rfl]
    rfl
  refine ⟨⟨?_, ?_⟩, ?_, ?_⟩
  · show (runAttempt (runAttempt (initialJob "c1" wInput) envFail) envOk).db.row.status = _
    rw [runAttempt_ok _ _ hjs1f rfl]
    exact pok_status _ _ rfl
  · show (runAttempt (runAttempt (initialJob "c1" wInput) envFail) envOk).db.row.error ≠ none
    rw [runAttempt_ok _ _ hjs1f rfl]
    show (processOrder (runAttempt (initialJob "c1" wInput) envFail).db envOk).db.row.error ≠
      none
    rw [pok_error _ _ rfl]
    rw [runAttempt_fail _ _ rfl rfl]
    show (processOrder (initialJob "c1" wInput).db envFail).db.row.error ≠ none
    rw [pf_error _ _ rfl]
    simp
  · show (runAttempt (initialJob "c1full" fullTolInput) envOkZero).db.row.status = _
    rw [runAttempt_ok _ _ rfl rfl]
    exact pok_status _ _ rfl
  · show (runAttempt (initialJob "c1full" fullTolInput) envOkZero).db.row.executedPrice = none
    rw [runAttempt_ok _ _ rfl rfl]
    show (processOrder (initialJob "c1full" fullTolInput).db envOkZero).db.row.executedPrice =
      none
    rw [pok_executedPrice _ _ rfl, execPriceOf_fullTol_zero]
    norm_num [applyQ, initialJob, createOrder]

/-! ## C8: concurrency ceiling and rolling-window rate limit -/

/-- No scheduler transition drops a waiting job: a waiting job either
keeps waiting or moves into execution. -/
lemma pool_step_no_drop (t u : PoolState) (hstep : PoolStep t u) :
    ∀ j, j ∈ t.waiting → j ∈ u.waiting ∨ j ∈ u.executing := by
  intro j hj
  cases hstep with
  | submit j' => exact Or.inl (List.mem_append_left _ hj)
  | dispatch j' rest hw hc hr =>
    rw [hw] at hj
    rcases List.mem_cons.mp hj with rfl | hmem
    · exact Or.inr (List.mem_cons_self _ _)
    · exact Or.inl hmem
  | finish j' hmem => exact Or.inl hj
  | tick => exact Or.inl hj

/-- Every reachable pool state respects both ceilings: at most
`queueConcurrency` jobs execute and at most `maxOrdersPerMinute`
admissions fall in the rolling window. -/
lemma pool_invariant (s : PoolState) (h : PoolReachable s) :
    s.executing.length ≤ queueConcurrency ∧ windowCount s ≤ maxOrdersPerMinute := by
  induction h with
  | init => simp [initPool, windowCount, queueConcurrency, maxOrdersPerMinute]
  | @step s s' hr hstep ih =>
    cases hstep with
    | submit j => exact ⟨ih.1, ih.2⟩
    | dispatch j rest hw hc hrate =>
      constructor
      · simpa using hc
      · have heq : windowCount
            ⟨rest, j :: s.executing, s.now :: s.admitTimes, s.now⟩ =
            windowCount s + 1 := by
          simp only [windowCount]
          rw [List.filter_cons, if_pos (by simp [rateLimitWindow])]
          simp
        rw [heq]
        omega
    | finish j hmem =>
      refine ⟨le_trans ?_ ih.1, ih.2⟩
      exact List.Sublist.length_le (List.erase_sublist j s.executing)
    | tick =>
      refine ⟨ih.1, le_trans ?_ ih.2⟩
      show windowCount { s with now := s.now + 1 } ≤ windowCount s
      simp only [windowCount]
      rw [← List.countP_eq_length_filter, ← List.countP_eq_length_filter]
      apply List.countP_mono_left
      intro a _ hpa
      simp only [decide_eq_true_eq] at hpa ⊢
      omega

/-- **C8.** Modelled from the spec (§4.4/§5) with the constants the
code configures (`concurrency: 10`, `limiter: {max: 100, duration:
60000}`): in every reachable scheduler state at most 10 orders occupy
the executing phase and at most 100 admissions fall within any rolling
60-second window, and no transition ever drops a waiting submission —
excess submissions wait rather than being rejected. -/
theorem concurrency_and_rate_ceiling (s : PoolState) (h : PoolReachable s) :
    s.executing.length ≤ queueConcurrency ∧
    windowCount s ≤ maxOrdersPerMinute ∧
    (∀ t u, PoolStep t u → ∀ j, j ∈ t.waiting → j ∈ u.waiting ∨ j ∈ u.executing) :=
  ⟨(pool_invariant s h).1, (pool_invariant s h).2, pool_step_no_drop⟩

/-- Witness for `concurrency_and_rate_ceiling` at a concrete reachable
state: one submission followed by its dispatch into execution. -/
theorem concurrency_and_rate_ceiling_witness :
    (⟨[], [7], [0], 0⟩ : PoolState).executing.length ≤ queueConcurrency ∧
    windowCount ⟨[], [7], [0], 0⟩ ≤ maxOrdersPerMinute ∧
    (∀ t u, PoolStep t u → ∀ j, j ∈ t.waiting → j ∈ u.waiting ∨ j ∈ u.executing) := by
  have h1 : PoolReachable ⟨[7], [], [], 0⟩ := by
    have := PoolReachable.step PoolReachable.init (PoolStep.submit initPool 7)
    simpa [initPool] using this
  have h2 : PoolReachable ⟨[], [7], [0], 0⟩ := by
    have := PoolReachable.step h1
      (PoolStep.dispatch ⟨[7], [], [], 0⟩ 7 [] rfl (by simp [queueConcurrency])
        (by simp [windowCount, maxOrdersPerMinute]))
    simpa using this
  exact concurrency_and_rate_ceiling _ h2

end SolanaDexRouter
